import Mathlib

/-!
Shallow embedding of the proposal-generation backend:
the proposal service (`generateProposal` with its model-candidate loop,
fallback generator and validation), the `/generate` HTTP route and the
`/generate-pdf` HTTP route.

External effects (the HTTP fetch to the generative endpoint and the
string-level JSON extraction/parse stage) are modelled as an input
`outcomes : String → FetchOutcome` giving, for each candidate model
identifier, what the fetch-and-parse stage produced; the randomized
template draw `Math.floor(Math.random() * fallbacks.length)` is modelled
as a natural-number parameter `r` reduced modulo the number of templates.
-/

/-- Model of JavaScript `s.trim()`: strip whitespace from both ends. -/
def jsTrim (s : String) : String :=
  String.mk (((s.data.dropWhile Char.isWhitespace).reverse.dropWhile
    Char.isWhitespace).reverse)

/-- Model of JavaScript `s.substring(0, n)`: the prefix of length `n`. -/
def jsTake (s : String) (n : Nat) : String :=
  String.mk (s.data.take n)

/-- The `Proposal` interface: title, objective, features, targetAudience,
considerations. -/
structure Proposal where
  title : String
  objective : String
  features : List String
  targetAudience : String
  considerations : List String
deriving Repr, DecidableEq

/-- The `ApiError` interface. The `type` field holds one of the string
literals of the union type
`'QUOTA_EXCEEDED' | 'AUTH_ERROR' | 'MODEL_NOT_FOUND' | 'NETWORK_ERROR' | 'VALIDATION_ERROR' | 'UNKNOWN_ERROR'`. -/
structure ApiError where
  name : String
  message : String
  type : String
  retryable : Bool
  userMessage : String
deriving Repr, DecidableEq

/-- The `ProposalResult` interface: proposal, source ("ai" or "fallback"),
optional error. -/
structure ProposalResult where
  proposal : Proposal
  source : String
  error : Option ApiError
deriving Repr, DecidableEq

/-- First canned fallback template of `getEnhancedFallback`
("Strategic Initiative"). -/
def fallbackTemplate0 (userIdea : String) : Proposal :=
  let truncatedIdea := jsTake userIdea 50
  let ellipsis := if userIdea.length > 50 then "..." else ""
  { title := "Strategic Initiative: " ++ truncatedIdea ++ ellipsis
  , objective := "This comprehensive project addresses: \"" ++ userIdea ++
      "\". We will deliver an innovative solution combining modern technology with user-centered design to achieve exceptional business outcomes and operational excellence."
  , features :=
      [ "Core functionality implementation with comprehensive error handling"
      , "Responsive multi-platform user interface design"
      , "Scalable cloud-native architecture foundation"
      , "Enterprise-grade security and data protection framework"
      , "Real-time analytics and performance monitoring capabilities"
      , "Seamless third-party API integrations"
      , "Automated testing and continuous deployment pipeline"
      , "Comprehensive documentation and support materials" ]
  , targetAudience := "Primary stakeholders including business users, technical teams, administrators, and end-customers requiring efficient, reliable, and scalable solutions."
  , considerations :=
      [ "Technology stack evaluation and proof-of-concept development"
      , "Agile project management with sprint planning and milestone tracking"
      , "Resource allocation and cross-functional team coordination"
      , "Budget planning with risk-adjusted contingency reserves"
      , "Security compliance and regulatory requirements analysis"
      , "Performance benchmarking and scalability testing strategy"
      , "User acceptance testing and feedback incorporation process"
      , "Post-launch support and maintenance planning" ] }

/-- Second canned fallback template of `getEnhancedFallback`
("Project Catalyst"). -/
def fallbackTemplate1 (userIdea : String) : Proposal :=
  let truncatedIdea := jsTake userIdea 50
  let ellipsis := if userIdea.length > 50 then "..." else ""
  { title := "Project Catalyst: " ++ truncatedIdea ++ ellipsis
  , objective := "Our project focuses on transforming \"" ++ userIdea ++
      "\" into a market-ready solution. This initiative will leverage cutting-edge technology to deliver measurable business outcomes and sustainable competitive advantage."
  , features :=
      [ "Advanced feature set with modular, maintainable architecture"
      , "Cross-platform compatibility and accessibility compliance"
      , "Real-time data processing and analytics dashboard"
      , "Automated workflow optimization and process streamlining"
      , "Robust integration capabilities with existing enterprise systems"
      , "Comprehensive monitoring, logging, and alerting systems"
      , "User training materials and knowledge base development"
      , "Disaster recovery and business continuity planning" ]
  , targetAudience := "Business stakeholders, technical implementation teams, end-users across multiple departments, and system administrators requiring comprehensive solutions."
  , considerations :=
      [ "Detailed technology stack evaluation and selection criteria"
      , "Development methodology and project governance framework"
      , "Quality assurance strategy and testing automation approach"
      , "Phased deployment and rollout planning across environments"
      , "Training, documentation, and change management requirements"
      , "Performance optimization and capacity planning analysis"
      , "Security audit and penetration testing requirements"
      , "Long-term maintenance and evolution roadmap" ] }

/-- `getEnhancedFallback(userIdea)`: picks one of the two templates by a
random index `Math.floor(Math.random() * fallbacks.length)`; the draw is
modelled by the parameter `r` taken modulo 2. -/
def getEnhancedFallback (r : Nat) (userIdea : String) : Proposal :=
  if r % 2 = 0 then fallbackTemplate0 userIdea else fallbackTemplate1 userIdea

/-- `validateProposal(proposal)`: every string field non-empty, both arrays
non-empty with all elements non-empty strings. -/
def validateProposal (p : Proposal) : Bool :=
  decide (0 < p.title.length) &&
  decide (0 < p.objective.length) &&
  (decide (0 < p.features.length) && p.features.all (fun f => decide (0 < f.length))) &&
  decide (0 < p.targetAudience.length) &&
  (decide (0 < p.considerations.length) &&
    p.considerations.all (fun c => decide (0 < c.length)))

/-- Outcome of the external fetch-and-parse stage for one candidate model.
`okParse (Except.ok p)` means HTTP success with response text whose JSON
extraction and `JSON.parse` produced `p` (the embedded code still runs
`validateProposal` on it); `okParse (Except.error em)` means the
extraction/parse stage threw a `ProposalServiceError` with message `em`;
`okEmpty` means HTTP success but no `candidates[0].content.parts[0].text`;
`httpError status emsg` means a non-ok HTTP status with
`errorData.error?.message = emsg`; `abortError` means the fetch was
aborted by the 30-second `AbortController`; `networkError msg` means any
other fetch exception with message `msg`. -/
inductive FetchOutcome where
  | okParse (presult : Except String Proposal)
  | okEmpty
  | httpError (status : Nat) (emsg : Option String)
  | abortError
  | networkError (msg : String)

/-- Message of the `ProposalServiceError` thrown when `validateProposal`
rejects a parsed object inside `cleanAndParseJSON` (the throw is caught by
the surrounding `catch (parseError)` and re-wrapped). -/
def validationFailedMsg : String :=
  "JSON parsing failed: Proposal validation failed - missing required fields"

/-- The `QUOTA_EXCEEDED` error returned on HTTP status 429. -/
def quotaErrorInfo : ApiError :=
  { name := "QuotaExceededError"
  , message := "API quota exceeded for all models"
  , type := "QUOTA_EXCEEDED"
  , retryable := false
  , userMessage := "AI service quota has been reached for today. Using demo data. The quota resets daily." }

/-- The `AUTH_ERROR` error returned on HTTP status 401 or 403. -/
def authErrorInfo : ApiError :=
  { name := "AuthError"
  , message := "API authentication failed"
  , type := "AUTH_ERROR"
  , retryable := false
  , userMessage := "API authentication failed. Please check your API key configuration." }

/-- The `MODEL_NOT_FOUND` error returned after the candidate loop ends
without success, carrying `lastError?.message || 'All AI models failed'`. -/
def allModelsFailedError (lastMsg : Option String) : ApiError :=
  { name := "AllModelsFailed"
  , message := lastMsg.getD "All AI models failed"
  , type := "MODEL_NOT_FOUND"
  , retryable := true
  , userMessage := "AI services are currently unavailable. Using high-quality demo data based on your idea." }

/-- The `VALIDATION_ERROR` attached for an empty / whitespace-only idea. -/
def validationErrorInfo : ApiError :=
  { name := "ValidationError"
  , message := "Invalid input idea"
  , type := "VALIDATION_ERROR"
  , retryable := false
  , userMessage := "Please provide a valid project idea" }

/-- The `VALIDATION_ERROR` attached for an idea longer than 4000 chars. -/
def tooLongErrorInfo : ApiError :=
  { name := "ValidationError"
  , message := "Input too long"
  , type := "VALIDATION_ERROR"
  , retryable := false
  , userMessage := "Project idea is too long. Please keep it under 4000 characters." }

/-- The ordered candidate model list of `generateProposal`. -/
def models : List String :=
  ["gemini-pro", "gemini-1.0-pro", "gemini-1.5-flash-latest"]

/-- The `for (const model of models)` loop of `generateProposal`, together
with the final all-models-failed return. Returns the `ProposalResult` and
the trace of candidate models for which an outbound call was made, in
order. `le` is the running `lastError` message (`lastError?.message`). -/
def runModels (r : Nat) (trimmedIdea : String) (outcomes : String → FetchOutcome) :
    List String → Option String → ProposalResult × List String
  | [], le =>
    ({ proposal := getEnhancedFallback r trimmedIdea
     , source := "fallback"
     , error := some (allModelsFailedError le) }, [])
  | m :: rest, _le =>
    match outcomes m with
    | .okParse (.ok p) =>
      if validateProposal p then
        ({ proposal := p, source := "ai", error := none }, [m])
      else
        let res := runModels r trimmedIdea outcomes rest (some validationFailedMsg)
        (res.1, m :: res.2)
    | .okParse (.error em) =>
      let res := runModels r trimmedIdea outcomes rest (some em)
      (res.1, m :: res.2)
    | .okEmpty =>
      let res := runModels r trimmedIdea outcomes rest
        (some "Empty response from AI model")
      (res.1, m :: res.2)
    | .httpError status emsg =>
      if status = 429 then
        ({ proposal := getEnhancedFallback r trimmedIdea
         , source := "fallback"
         , error := some quotaErrorInfo }, [m])
      else if status = 404 then
        let res := runModels r trimmedIdea outcomes rest
          (some ("Model " ++ m ++ " not found"))
        (res.1, m :: res.2)
      else if status = 401 ∨ status = 403 then
        ({ proposal := getEnhancedFallback r trimmedIdea
         , source := "fallback"
         , error := some authErrorInfo }, [m])
      else
        let res := runModels r trimmedIdea outcomes rest
          (some ("HTTP " ++ toString status ++ ": " ++ emsg.getD "Unknown error"))
        (res.1, m :: res.2)
    | .abortError =>
      ({ proposal := getEnhancedFallback r trimmedIdea
       , source := "fallback"
       , error := some (allModelsFailedError (some "Request timeout across all models")) }, [m])
    | .networkError msg =>
      let res := runModels r trimmedIdea outcomes rest (some msg)
      (res.1, m :: res.2)

/-- The documented placeholder value for the API credential. -/
def placeholderKey : String := "your_google_ai_api_key_here"

/-- `!apiKey || apiKey === 'your_google_ai_api_key_here'`: the credential
is absent (`none`, i.e. the env var is unset), falsy (empty string), or
equal to the placeholder. -/
def apiKeyUnconfigured : Option String → Bool
  | none => true
  | some k => k == "" || k == placeholderKey

/-- `generateProposal(idea)` of the proposal service, with the value of
`process.env.GOOGLE_API_KEY` (`apiKey`), the random template draw (`r`)
and the external fetch behaviour (`outcomes`) made explicit. Returns the
`ProposalResult` together with the trace of candidate models actually
called. -/
def generateProposalRun (apiKey : Option String) (r : Nat) (idea : String)
    (outcomes : String → FetchOutcome) : ProposalResult × List String :=
  if apiKeyUnconfigured apiKey then
    ({ proposal := getEnhancedFallback r idea, source := "fallback", error := none }, [])
  else if (jsTrim idea).length = 0 then
    ({ proposal := getEnhancedFallback r idea
     , source := "fallback"
     , error := some validationErrorInfo }, [])
  else
    let trimmedIdea := jsTrim idea
    if trimmedIdea.length > 4000 then
      ({ proposal := getEnhancedFallback r (jsTake trimmedIdea 4000)
       , source := "fallback"
       , error := some tooLongErrorInfo }, [])
    else
      runModels r trimmedIdea outcomes models none

/-- The `ProposalResult` returned by `generateProposal(idea)`. -/
def generateProposal (apiKey : Option String) (r : Nat) (idea : String)
    (outcomes : String → FetchOutcome) : ProposalResult :=
  (generateProposalRun apiKey r idea outcomes).1

/-- Classification-based loop policy: `true` exactly for the outcomes on
which the loop records `lastError` and advances to the next candidate
(`continue`): parse-stage errors, a parsed object rejected by
`validateProposal`, an empty AI response, a failing HTTP status other than
429/401/403 (including 404), and non-abort fetch exceptions. -/
def isContinueOutcome : FetchOutcome → Bool
  | .okParse (.ok p) => !(validateProposal p)
  | .okParse (.error _) => true
  | .okEmpty => true
  | .httpError status _ => !(status = 429 ∨ status = 401 ∨ status = 403 : Bool)
  | .abortError => false
  | .networkError _ => true

/-- A candidate-specific failure in the sense of the orchestration spec:
`ModelNotFound` (HTTP 404), a generic `ApiError` (any other failing HTTP
status that is not 429/401/403), or a transient network failure. -/
def isCandidateFailure : FetchOutcome → Bool
  | .httpError status _ => !(status = 429 ∨ status = 401 ∨ status = 403 : Bool)
  | .networkError _ => true
  | _ => false

/-- The `lastError` message the loop body records for model `m` on a
continue-class outcome. -/
def continueMsg (m : String) : FetchOutcome → String
  | .okParse (.ok _) => validationFailedMsg
  | .okParse (.error em) => em
  | .okEmpty => "Empty response from AI model"
  | .httpError status emsg =>
    if status = 404 then "Model " ++ m ++ " not found"
    else "HTTP " ++ toString status ++ ": " ++ emsg.getD "Unknown error"
  | .abortError => "Request timeout across all models"
  | .networkError msg => msg

/-- The running `lastError` message after processing a list of
continue-class candidates, starting from `le`. -/
def lastMsg (outcomes : String → FetchOutcome) : List String → Option String → Option String
  | [], le => le
  | m :: rest, _ => lastMsg outcomes rest (some (continueMsg m (outcomes m)))

/-- The embedded error descriptor of the `/generate` success response body
(`type`, `message`, `retryable`, `technicalDetails`). -/
structure RouteError where
  type : String
  message : String
  retryable : Bool
  technicalDetails : String
deriving Repr, DecidableEq

/-- The embedded error descriptor built from an orchestrator `ApiError`
in the `/generate` success response
(`type`, `message: userMessage`, `retryable`, `technicalDetails: message`). -/
def routeErrorOf (e : ApiError) : RouteError :=
  { type := e.type
  , message := e.userMessage
  , retryable := e.retryable
  , technicalDetails := e.message }

/-- The HTTP response of `POST /generate` as observable to the client:
status code, `success` flag, optional `data` (the proposal), optional
`source`, optional embedded error descriptor. -/
structure GenerateResponse where
  status : Nat
  success : Bool
  data : Option Proposal
  source : Option String
  error : Option RouteError
deriving Repr, DecidableEq

/-- The `POST /generate` route handler (the routes module with the
4000-character ceiling and the structured response), on the path where the
orchestrator completes within the 15-second deadline. `idea` is the `idea`
field of the request body (`none` models a missing or non-string field,
which the guard `!idea || typeof idea !== 'string'` rejects; the empty
string is falsy and is rejected by the same guard). The returned `Bool`
records whether `generateProposal` was invoked. -/
def handleGenerate (apiKey : Option String) (r : Nat) (idea : Option String)
    (outcomes : String → FetchOutcome) : GenerateResponse × Bool :=
  match idea with
  | none =>
    ({ status := 400, success := false, data := none, source := none, error := none },
      false)
  | some s =>
    if s = "" then
      ({ status := 400, success := false, data := none, source := none, error := none },
        false)
    else if s.length > 4000 then
      ({ status := 400, success := false, data := none, source := none, error := none },
        false)
    else
      let result := generateProposal apiKey r s outcomes
      ({ status := 200
       , success := true
       , data := some result.proposal
       , source := some result.source
       , error := result.error.map routeErrorOf }, true)

/-- The `proposal` field of a `POST /generate-pdf` request body, with every
field optional: the route guard only looks at `title`. -/
structure PdfProposalBody where
  title : Option String
  objective : Option String
  features : Option (List String)
  targetAudience : Option String
  considerations : Option (List String)
deriving Repr, DecidableEq

/-- Observable behaviour of the `/generate-pdf` route before PDF
rendering: either a 400 response, or an attempted generation with the
attachment filename that will be set on success. -/
inductive PdfAction where
  | badRequest
  | attempt (filename : String)
deriving Repr, DecidableEq

/-- `proposal.title.replace(/[^a-z0-9]/gi, '_')`: every character that is
not an ASCII letter or digit becomes an underscore. -/
def sanitizeTitle (t : String) : String :=
  String.mk (t.data.map (fun c => if c.isAlphanum then c else '_'))

/-- The `POST /generate-pdf` route handler up to the PDF-rendering call:
the guard `if (!proposal || !proposal.title)` returns 400 when the
`proposal` field is missing or its `title` is missing or empty (falsy);
otherwise PDF generation is attempted with the sanitized-title filename. -/
def handleGeneratePdf (body : Option PdfProposalBody) : PdfAction :=
  match body with
  | none => .badRequest
  | some p =>
    match p.title with
    | none => .badRequest
    | some t =>
      if t = "" then .badRequest
      else .attempt (sanitizeTitle t ++ ".pdf")

/-- Leading-match check: `matchesAt needle hay` is `true` when `needle` is
a prefix of `hay`. -/
def matchesAt : List Char → List Char → Bool
  | [], _ => true
  | _ :: _, [] => false
  | a :: as, b :: bs => a == b && matchesAt as bs

/-- `occursIn needle hay`: `needle` occurs as a contiguous substring of
`hay`. -/
def occursIn : List Char → List Char → Bool
  | needle, [] => needle.isEmpty
  | needle, c :: rest => matchesAt needle (c :: rest) || occursIn needle rest

/-- `strOccurs needle hay`: `needle` occurs as a contiguous substring of
the string `hay`. -/
def strOccurs (needle hay : String) : Bool :=
  occursIn needle.data hay.data

/-- Formalization of claim C9 at one template draw and one idea: the
truncated idea text (50-character prefix, with the ellipsis marker
appended exactly when the idea is longer) occurs in both the title and the
objective of the fallback proposal. -/
def c9ClaimAt (r : Nat) (idea : String) : Prop :=
  let marked := jsTake idea 50 ++ (if idea.length > 50 then "..." else "")
  strOccurs marked (getEnhancedFallback r idea).title = true ∧
  strOccurs marked (getEnhancedFallback r idea).objective = true

/-- A concrete 4001-character idea, one character over the `/generate`
route's 4000-character ceiling. -/
def bigIdea : String := String.mk (List.replicate 4001 'a')

/-- A concrete 51-character idea, one character over the fallback
generator's 50-character truncation bound. -/
def idea51 : String := "aaaaaaaaaaaaaaaaaaaaaaaaaaaaaaaaaaaaaaaaaaaaaaaaaaa"

set_option maxRecDepth 8000

theorem length_append_pos_left (a b : String) (h : 0 < a.length) :
    0 < (a ++ b).length := by
  rw [String.length_append]
  omega

theorem validateProposal_iff (p : Proposal) :
    validateProposal p = true ↔
      (0 < p.title.length ∧ 0 < p.objective.length ∧
      (0 < p.features.length ∧ ∀ f ∈ p.features, 0 < f.length) ∧
      0 < p.targetAudience.length ∧
      (0 < p.considerations.length ∧ ∀ c ∈ p.considerations, 0 < c.length)) := by
  simp only [validateProposal, Bool.and_eq_true, decide_eq_true_eq, List.all_eq_true]
  tauto

theorem validateProposal_fallbackTemplate0 (idea : String) :
    validateProposal (fallbackTemplate0 idea) = true := by
  rw [validateProposal_iff]
  dsimp only [fallbackTemplate0]
  refine ⟨?_, ?_, ⟨by decide, by decide⟩, by decide, ⟨by decide, by decide⟩⟩
  · exact length_append_pos_left _ _ (length_append_pos_left _ _ (by decide))
  · exact length_append_pos_left _ _ (length_append_pos_left _ _ (by decide))

theorem validateProposal_fallbackTemplate1 (idea : String) :
    validateProposal (fallbackTemplate1 idea) = true := by
  rw [validateProposal_iff]
  dsimp only [fallbackTemplate1]
  refine ⟨?_, ?_, ⟨by decide, by decide⟩, by decide, ⟨by decide, by decide⟩⟩
  · exact length_append_pos_left _ _ (length_append_pos_left _ _ (by decide))
  · exact length_append_pos_left _ _ (length_append_pos_left _ _ (by decide))

theorem validateProposal_getEnhancedFallback (r : Nat) (idea : String) :
    validateProposal (getEnhancedFallback r idea) = true := by
  unfold getEnhancedFallback
  split
  · exact validateProposal_fallbackTemplate0 idea
  · exact validateProposal_fallbackTemplate1 idea

theorem runModels_valid (r : Nat) (idea : String) (outcomes : String → FetchOutcome) :
    ∀ (ms : List String) (le : Option String),
      validateProposal (runModels r idea outcomes ms le).1.proposal = true := by
  intro ms
  induction ms with
  | nil => intro le; exact validateProposal_getEnhancedFallback r idea
  | cons m rest ih =>
    intro le
    cases ho : outcomes m with
    | okParse presult =>
      cases presult with
      | ok p =>
        by_cases hv : validateProposal p = true
        · simp [runModels, ho, hv]
        · simp only [runModels, ho]
          rw [if_neg (by simp [hv])]
          exact ih _
      | error em =>
        simp only [runModels, ho]
        exact ih _
    | okEmpty =>
      simp only [runModels, ho]
      exact ih _
    | httpError status emsg =>
      simp only [runModels, ho]
      by_cases h429 : status = 429
      · rw [if_pos h429]; exact validateProposal_getEnhancedFallback r idea
      · rw [if_neg h429]
        by_cases h404 : status = 404
        · rw [if_pos h404]; exact ih _
        · rw [if_neg h404]
          by_cases hauth : status = 401 ∨ status = 403
          · rw [if_pos hauth]; exact validateProposal_getEnhancedFallback r idea
          · rw [if_neg hauth]; exact ih _
    | abortError =>
      simp only [runModels, ho]
      exact validateProposal_getEnhancedFallback r idea
    | networkError msg =>
      simp only [runModels, ho]
      exact ih _

theorem runModels_cons_continue (r : Nat) (idea : String)
    (outcomes : String → FetchOutcome) (m : String) (rest : List String)
    (le : Option String) (h : isContinueOutcome (outcomes m) = true) :
    runModels r idea outcomes (m :: rest) le =
      ((runModels r idea outcomes rest (some (continueMsg m (outcomes m)))).1,
        m :: (runModels r idea outcomes rest (some (continueMsg m (outcomes m)))).2) := by
  cases ho : outcomes m with
  | okParse presult =>
    cases presult with
    | ok p =>
      rw [ho] at h
      simp only [isContinueOutcome, Bool.not_eq_true'] at h
      simp [runModels, ho, continueMsg, h]
    | error em => simp [runModels, ho, continueMsg]
  | okEmpty => simp [runModels, ho, continueMsg]
  | httpError status emsg =>
    rw [ho] at h
    simp only [isContinueOutcome, Bool.not_eq_true', decide_eq_false_iff_not] at h
    push_neg at h
    obtain ⟨h429, h401, h403⟩ := h
    by_cases h404 : status = 404
    · simp [runModels, ho, continueMsg, h404, h429]
    · simp [runModels, ho, continueMsg, h404, h429, h401, h403]
  | abortError =>
    rw [ho] at h
    simp [isContinueOutcome] at h
  | networkError msg => simp [runModels, ho, continueMsg]

theorem runModels_skip (r : Nat) (idea : String) (outcomes : String → FetchOutcome) :
    ∀ (pre l : List String) (le : Option String),
      (∀ x ∈ pre, isContinueOutcome (outcomes x) = true) →
      runModels r idea outcomes (pre ++ l) le =
        ((runModels r idea outcomes l (lastMsg outcomes pre le)).1,
          pre ++ (runModels r idea outcomes l (lastMsg outcomes pre le)).2) := by
  intro pre
  induction pre with
  | nil => intro l le _; simp [lastMsg]
  | cons m rest ih =>
    intro l le h
    have hm := h m (by simp)
    have hrest : ∀ x ∈ rest, isContinueOutcome (outcomes x) = true :=
      fun x hx => h x (by simp [hx])
    rw [List.cons_append, runModels_cons_continue r idea outcomes m (rest ++ l) le hm,
      ih l _ hrest]
    simp [lastMsg]

theorem runModels_cons_quota (r : Nat) (idea : String)
    (outcomes : String → FetchOutcome) (m : String) (rest : List String)
    (le : Option String) (em : Option String)
    (ho : outcomes m = .httpError 429 em) :
    runModels r idea outcomes (m :: rest) le =
      ({ proposal := getEnhancedFallback r idea, source := "fallback",
         error := some quotaErrorInfo }, [m]) := by
  simp [runModels, ho]

theorem runModels_cons_auth (r : Nat) (idea : String)
    (outcomes : String → FetchOutcome) (m : String) (rest : List String)
    (le : Option String) (s : Nat) (em : Option String)
    (hs : s = 401 ∨ s = 403) (ho : outcomes m = .httpError s em) :
    runModels r idea outcomes (m :: rest) le =
      ({ proposal := getEnhancedFallback r idea, source := "fallback",
         error := some authErrorInfo }, [m]) := by
  have h429 : ¬ s = 429 := by rcases hs with h | h <;> omega
  have h404 : ¬ s = 404 := by rcases hs with h | h <;> omega
  simp [runModels, ho, h429, h404, hs]

theorem runModels_cons_abort (r : Nat) (idea : String)
    (outcomes : String → FetchOutcome) (m : String) (rest : List String)
    (le : Option String) (ho : outcomes m = .abortError) :
    runModels r idea outcomes (m :: rest) le =
      ({ proposal := getEnhancedFallback r idea, source := "fallback",
         error := some (allModelsFailedError (some "Request timeout across all models")) },
        [m]) := by
  simp [runModels, ho]

theorem runModels_all_continue (r : Nat) (idea : String)
    (outcomes : String → FetchOutcome) (ms : List String) (le : Option String)
    (h : ∀ x ∈ ms, isContinueOutcome (outcomes x) = true) :
    runModels r idea outcomes ms le =
      ({ proposal := getEnhancedFallback r idea, source := "fallback",
         error := some (allModelsFailedError (lastMsg outcomes ms le)) }, ms) := by
  have hskip := runModels_skip r idea outcomes ms [] le h
  rw [List.append_nil] at hskip
  rw [hskip]
  simp [runModels]

theorem candidateFailure_continue (o : FetchOutcome)
    (h : isCandidateFailure o = true) : isContinueOutcome o = true := by
  cases o <;> simp_all [isCandidateFailure, isContinueOutcome]

theorem generateProposalRun_configured (apiKey : Option String) (r : Nat)
    (idea : String) (outcomes : String → FetchOutcome)
    (hk : apiKeyUnconfigured apiKey = false)
    (hi : (jsTrim idea).length ≠ 0)
    (hl : (jsTrim idea).length ≤ 4000) :
    generateProposalRun apiKey r idea outcomes =
      runModels r (jsTrim idea) outcomes models none := by
  unfold generateProposalRun
  rw [if_neg (by simp [hk]), if_neg hi]
  dsimp only
  rw [if_neg (by omega)]

/-- Claim C1: every `ProposalResult` returned by `generateProposal`, for
every input idea (including the empty string), every credential state,
every random template draw and every external fetch behaviour — i.e. on
the AI-validated path and on every fallback path — carries a proposal
that passes `validateProposal` (title, objective and targetAudience
non-empty, features and considerations non-empty lists of non-empty
strings); and the fallback generator itself always yields a structurally
valid proposal. -/
theorem c1_generateProposal_always_structurally_valid :
    (∀ (apiKey : Option String) (r : Nat) (idea : String)
      (outcomes : String → FetchOutcome),
      validateProposal (generateProposal apiKey r idea outcomes).proposal = true) ∧
    (∀ (r : Nat) (idea : String),
      validateProposal (getEnhancedFallback r idea) = true) := by
  constructor
  · intro apiKey r idea outcomes
    unfold generateProposal generateProposalRun
    split
    · exact validateProposal_getEnhancedFallback r idea
    · split
      · exact validateProposal_getEnhancedFallback r idea
      · dsimp only
        split
        · exact validateProposal_getEnhancedFallback r _
        · exact runModels_valid r _ outcomes models none
  · exact validateProposal_getEnhancedFallback

/-- Claim C2: whenever the loop reaches a candidate `m` at any position of
the model list (all earlier candidates had continue-class outcomes) and
the call for `m` yields a rate-limit status (429) or an
authorization-failure status (401/403), no later candidate is called (the
trace is exactly the earlier candidates plus `m`) and the result is
`source = "fallback"` with a `QUOTA_EXCEEDED` resp. `AUTH_ERROR` error,
both of which have `retryable = false`. -/
theorem c2_quota_auth_short_circuit
    (apiKey : Option String) (r : Nat) (idea : String)
    (outcomes : String → FetchOutcome)
    (pre rest : List String) (m : String) (s : Nat) (em : Option String)
    (hk : apiKeyUnconfigured apiKey = false)
    (hi : (jsTrim idea).length ≠ 0)
    (hl : (jsTrim idea).length ≤ 4000)
    (hsplit : models = pre ++ m :: rest)
    (hpre : ∀ x ∈ pre, isContinueOutcome (outcomes x) = true)
    (ho : outcomes m = .httpError s em)
    (hs : s = 429 ∨ s = 401 ∨ s = 403) :
    (generateProposalRun apiKey r idea outcomes).2 = pre ++ [m] ∧
    (generateProposalRun apiKey r idea outcomes).1.source = "fallback" ∧
    (generateProposalRun apiKey r idea outcomes).1.error =
      some (if s = 429 then quotaErrorInfo else authErrorInfo) ∧
    quotaErrorInfo.type = "QUOTA_EXCEEDED" ∧ quotaErrorInfo.retryable = false ∧
    authErrorInfo.type = "AUTH_ERROR" ∧ authErrorInfo.retryable = false := by
  rw [generateProposalRun_configured apiKey r idea outcomes hk hi hl, hsplit,
    runModels_skip r (jsTrim idea) outcomes pre (m :: rest) none hpre]
  rcases hs with h | hs2
  · subst h
    rw [runModels_cons_quota r (jsTrim idea) outcomes m rest _ em ho]
    exact ⟨rfl, rfl, by rw [if_pos rfl], rfl, rfl, rfl, rfl⟩
  · have hne : ¬ s = 429 := by rcases hs2 with h | h <;> omega
    rw [runModels_cons_auth r (jsTrim idea) outcomes m rest _ s em hs2 ho]
    exact ⟨rfl, rfl, by rw [if_neg hne], rfl, rfl, rfl, rfl⟩

/-- Witness for C2: with a configured key, the first candidate failing
with a network error (continue) and the second with HTTP 429, the trace
stops after the second candidate and the result is the quota fallback. -/
theorem c2_quota_auth_short_circuit_witness :
    (generateProposalRun (some "api-key") 0 "Build a todo app"
      (fun m => if m = "gemini-pro" then FetchOutcome.networkError "socket hang up"
        else FetchOutcome.httpError 429 none)).2 = ["gemini-pro"] ++ ["gemini-1.0-pro"] ∧
    (generateProposalRun (some "api-key") 0 "Build a todo app"
      (fun m => if m = "gemini-pro" then FetchOutcome.networkError "socket hang up"
        else FetchOutcome.httpError 429 none)).1.source = "fallback" ∧
    (generateProposalRun (some "api-key") 0 "Build a todo app"
      (fun m => if m = "gemini-pro" then FetchOutcome.networkError "socket hang up"
        else FetchOutcome.httpError 429 none)).1.error =
      some (if (429 : Nat) = 429 then quotaErrorInfo else authErrorInfo) ∧
    quotaErrorInfo.type = "QUOTA_EXCEEDED" ∧ quotaErrorInfo.retryable = false ∧
    authErrorInfo.type = "AUTH_ERROR" ∧ authErrorInfo.retryable = false :=
  c2_quota_auth_short_circuit (some "api-key") 0 "Build a todo app"
    (fun m => if m = "gemini-pro" then FetchOutcome.networkError "socket hang up"
      else FetchOutcome.httpError 429 none)
    ["gemini-pro"] ["gemini-1.5-flash-latest"] "gemini-1.0-pro" 429 none
    (by decide) (by decide) (by decide) rfl (by decide) rfl (Or.inl rfl)

/-- Claim C3: if every candidate model fails with a candidate-specific
classification (HTTP 404 `ModelNotFound`, any other non-429/401/403
failing HTTP status, or a network failure), the orchestrator calls every
candidate exactly once in list order (the trace equals the model list)
and returns a fallback result whose error has type `MODEL_NOT_FOUND`,
`retryable = true`, and whose message is the `lastError` message recorded
for the last candidate. -/
theorem c3_all_candidates_exhausted_in_order
    (apiKey : Option String) (r : Nat) (idea : String)
    (outcomes : String → FetchOutcome)
    (hk : apiKeyUnconfigured apiKey = false)
    (hi : (jsTrim idea).length ≠ 0)
    (hl : (jsTrim idea).length ≤ 4000)
    (hall : ∀ m ∈ models, isCandidateFailure (outcomes m) = true) :
    (generateProposalRun apiKey r idea outcomes).2 = models ∧
    (generateProposalRun apiKey r idea outcomes).1.source = "fallback" ∧
    (generateProposalRun apiKey r idea outcomes).1.error =
      some (allModelsFailedError (some (continueMsg "gemini-1.5-flash-latest"
        (outcomes "gemini-1.5-flash-latest")))) ∧
    (allModelsFailedError (some (continueMsg "gemini-1.5-flash-latest"
      (outcomes "gemini-1.5-flash-latest")))).type = "MODEL_NOT_FOUND" ∧
    (allModelsFailedError (some (continueMsg "gemini-1.5-flash-latest"
      (outcomes "gemini-1.5-flash-latest")))).retryable = true ∧
    (allModelsFailedError (some (continueMsg "gemini-1.5-flash-latest"
      (outcomes "gemini-1.5-flash-latest")))).message =
      continueMsg "gemini-1.5-flash-latest" (outcomes "gemini-1.5-flash-latest") := by
  have hcont : ∀ m ∈ models, isContinueOutcome (outcomes m) = true :=
    fun m hm => candidateFailure_continue _ (hall m hm)
  rw [generateProposalRun_configured apiKey r idea outcomes hk hi hl,
    runModels_all_continue r (jsTrim idea) outcomes models none hcont]
  exact ⟨rfl, rfl, rfl, rfl, rfl, rfl⟩

/-- Witness for C3: every candidate fails with HTTP 500; all three models
are called in order and the result carries the last HTTP error message. -/
theorem c3_all_candidates_exhausted_in_order_witness :
    (generateProposalRun (some "api-key") 0 "Build a todo app"
      (fun _ => FetchOutcome.httpError 500 (some "Internal error"))).2 = models ∧
    (generateProposalRun (some "api-key") 0 "Build a todo app"
      (fun _ => FetchOutcome.httpError 500 (some "Internal error"))).1.source =
      "fallback" ∧
    (generateProposalRun (some "api-key") 0 "Build a todo app"
      (fun _ => FetchOutcome.httpError 500 (some "Internal error"))).1.error =
      some (allModelsFailedError (some (continueMsg "gemini-1.5-flash-latest"
        (FetchOutcome.httpError 500 (some "Internal error"))))) ∧
    (allModelsFailedError (some (continueMsg "gemini-1.5-flash-latest"
      (FetchOutcome.httpError 500 (some "Internal error"))))).type =
      "MODEL_NOT_FOUND" ∧
    (allModelsFailedError (some (continueMsg "gemini-1.5-flash-latest"
      (FetchOutcome.httpError 500 (some "Internal error"))))).retryable = true ∧
    (allModelsFailedError (some (continueMsg "gemini-1.5-flash-latest"
      (FetchOutcome.httpError 500 (some "Internal error"))))).message =
      continueMsg "gemini-1.5-flash-latest"
        (FetchOutcome.httpError 500 (some "Internal error")) :=
  c3_all_candidates_exhausted_in_order (some "api-key") 0 "Build a todo app"
    (fun _ => FetchOutcome.httpError 500 (some "Internal error"))
    (by decide) (by decide) (by decide) (by decide)

/-- Claim C4 (amended): when the abort signal fires on a reached
candidate, the loop stops entirely (no later candidate is called) and the
result is a fallback whose error has `retryable = true` and message
"Request timeout across all models" — but its kind is `MODEL_NOT_FOUND`
(the shared all-models-failed error), not a dedicated Timeout kind: the
`ApiError` type union contains no timeout variant. -/
theorem c4_timeout_stops_loop_with_model_not_found
    (apiKey : Option String) (r : Nat) (idea : String)
    (outcomes : String → FetchOutcome)
    (pre rest : List String) (m : String)
    (hk : apiKeyUnconfigured apiKey = false)
    (hi : (jsTrim idea).length ≠ 0)
    (hl : (jsTrim idea).length ≤ 4000)
    (hsplit : models = pre ++ m :: rest)
    (hpre : ∀ x ∈ pre, isContinueOutcome (outcomes x) = true)
    (hm : outcomes m = .abortError) :
    (generateProposalRun apiKey r idea outcomes).2 = pre ++ [m] ∧
    (generateProposalRun apiKey r idea outcomes).1.source = "fallback" ∧
    (generateProposalRun apiKey r idea outcomes).1.error =
      some (allModelsFailedError (some "Request timeout across all models")) ∧
    (allModelsFailedError (some "Request timeout across all models")).type =
      "MODEL_NOT_FOUND" ∧
    (allModelsFailedError (some "Request timeout across all models")).retryable =
      true ∧
    (allModelsFailedError (some "Request timeout across all models")).message =
      "Request timeout across all models" := by
  rw [generateProposalRun_configured apiKey r idea outcomes hk hi hl, hsplit,
    runModels_skip r (jsTrim idea) outcomes pre (m :: rest) none hpre,
    runModels_cons_abort r (jsTrim idea) outcomes m rest _ hm]
  exact ⟨rfl, rfl, rfl, rfl, rfl, rfl⟩

/-- Counterexample for C4 as stated: on an aborted call the attached
error's kind is `MODEL_NOT_FOUND`, not a Timeout kind ("TIMEOUT" /
"TIMEOUT_ERROR"), even though the loop does stop after the aborted
candidate. -/
theorem c4_timeout_kind_counterexample :
    (generateProposal (some "api-key") 0 "Test"
      (fun _ => FetchOutcome.abortError)).error.map ApiError.type =
      some "MODEL_NOT_FOUND" ∧
    ¬ ((generateProposal (some "api-key") 0 "Test"
      (fun _ => FetchOutcome.abortError)).error.map ApiError.type =
      some "TIMEOUT") ∧
    ¬ ((generateProposal (some "api-key") 0 "Test"
      (fun _ => FetchOutcome.abortError)).error.map ApiError.type =
      some "TIMEOUT_ERROR") ∧
    (generateProposalRun (some "api-key") 0 "Test"
      (fun _ => FetchOutcome.abortError)).2 = ["gemini-pro"] := by
  decide

/-- Witness for C4 (amended): abort on the very first candidate stops the
loop after one call. -/
theorem c4_timeout_stops_loop_witness :
    (generateProposalRun (some "api-key") 0 "Build a todo app"
      (fun _ => FetchOutcome.abortError)).2 = [] ++ ["gemini-pro"] ∧
    (generateProposalRun (some "api-key") 0 "Build a todo app"
      (fun _ => FetchOutcome.abortError)).1.source = "fallback" ∧
    (generateProposalRun (some "api-key") 0 "Build a todo app"
      (fun _ => FetchOutcome.abortError)).1.error =
      some (allModelsFailedError (some "Request timeout across all models")) ∧
    (allModelsFailedError (some "Request timeout across all models")).type =
      "MODEL_NOT_FOUND" ∧
    (allModelsFailedError (some "Request timeout across all models")).retryable =
      true ∧
    (allModelsFailedError (some "Request timeout across all models")).message =
      "Request timeout across all models" :=
  c4_timeout_stops_loop_with_model_not_found (some "api-key") 0 "Build a todo app"
    (fun _ => FetchOutcome.abortError) [] ["gemini-1.0-pro", "gemini-1.5-flash-latest"]
    "gemini-pro" (by decide) (by decide) (by decide) rfl (by decide) rfl

/-- Claim C5: when the API credential is absent or equal to the documented
placeholder, `generateProposal` makes no outbound call (empty trace) and
returns `source = "fallback"` with no error attached, for every idea. -/
theorem c5_unconfigured_key_fallback_no_call
    (apiKey : Option String) (r : Nat) (idea : String)
    (outcomes : String → FetchOutcome)
    (hk : apiKey = none ∨ apiKey = some placeholderKey) :
    (generateProposalRun apiKey r idea outcomes).2 = [] ∧
    (generateProposalRun apiKey r idea outcomes).1.source = "fallback" ∧
    (generateProposalRun apiKey r idea outcomes).1.error = none := by
  have hu : apiKeyUnconfigured apiKey = true := by
    rcases hk with h | h <;> subst h <;> decide
  unfold generateProposalRun
  rw [if_pos hu]
  exact ⟨rfl, rfl, rfl⟩

/-- Witness for C5: with no key configured, no call is made and the
fallback result has no error. -/
theorem c5_unconfigured_key_fallback_no_call_witness :
    (generateProposalRun none 0 "Some project idea"
      (fun _ => FetchOutcome.abortError)).2 = [] ∧
    (generateProposalRun none 0 "Some project idea"
      (fun _ => FetchOutcome.abortError)).1.source = "fallback" ∧
    (generateProposalRun none 0 "Some project idea"
      (fun _ => FetchOutcome.abortError)).1.error = none :=
  c5_unconfigured_key_fallback_no_call none 0 "Some project idea"
    (fun _ => FetchOutcome.abortError) (Or.inl rfl)

/-- Claim C6: for every request with a valid idea (non-empty string of at
most 4000 characters), when `generateProposal` completes within the
deadline `POST /generate` responds with HTTP 200, `success = true`, the
orchestrator's proposal as `data`, its `source`, and an embedded error
descriptor (type, userMessage, retryable, technical details) present
exactly when the orchestrator result carries an error — partial AI
failure is metadata, never a failing HTTP status. -/
theorem c6_generate_route_success_contract
    (apiKey : Option String) (r : Nat) (idea : String)
    (outcomes : String → FetchOutcome)
    (hne : idea ≠ "") (hlen : idea.length ≤ 4000) :
    (handleGenerate apiKey r (some idea) outcomes).1.status = 200 ∧
    (handleGenerate apiKey r (some idea) outcomes).2 = true ∧
    (handleGenerate apiKey r (some idea) outcomes).1.success = true ∧
    (handleGenerate apiKey r (some idea) outcomes).1.data =
      some (generateProposal apiKey r idea outcomes).proposal ∧
    (handleGenerate apiKey r (some idea) outcomes).1.source =
      some (generateProposal apiKey r idea outcomes).source ∧
    (handleGenerate apiKey r (some idea) outcomes).1.error =
      (generateProposal apiKey r idea outcomes).error.map routeErrorOf ∧
    ((handleGenerate apiKey r (some idea) outcomes).1.error.isSome ↔
      (generateProposal apiKey r idea outcomes).error.isSome) := by
  have hred : handleGenerate apiKey r (some idea) outcomes =
      ({ status := 200
       , success := true
       , data := some (generateProposal apiKey r idea outcomes).proposal
       , source := some (generateProposal apiKey r idea outcomes).source
       , error := (generateProposal apiKey r idea outcomes).error.map routeErrorOf },
        true) := by
    unfold handleGenerate
    dsimp only
    rw [if_neg hne, if_neg (by omega)]
  rw [hred]
  refine ⟨rfl, rfl, rfl, rfl, rfl, rfl, ?_⟩
  cases h : (generateProposal apiKey r idea outcomes).error <;> simp [h]

/-- Witness for C6: a valid idea with an unconfigured key yields a 200
response carrying the fallback proposal and no error descriptor. -/
theorem c6_generate_route_success_contract_witness :
    (handleGenerate none 0 (some "Build an app")
      (fun _ => FetchOutcome.abortError)).1.status = 200 ∧
    (handleGenerate none 0 (some "Build an app")
      (fun _ => FetchOutcome.abortError)).2 = true ∧
    (handleGenerate none 0 (some "Build an app")
      (fun _ => FetchOutcome.abortError)).1.success = true ∧
    (handleGenerate none 0 (some "Build an app")
      (fun _ => FetchOutcome.abortError)).1.data =
      some (generateProposal none 0 "Build an app"
        (fun _ => FetchOutcome.abortError)).proposal ∧
    (handleGenerate none 0 (some "Build an app")
      (fun _ => FetchOutcome.abortError)).1.source =
      some (generateProposal none 0 "Build an app"
        (fun _ => FetchOutcome.abortError)).source ∧
    (handleGenerate none 0 (some "Build an app")
      (fun _ => FetchOutcome.abortError)).1.error =
      (generateProposal none 0 "Build an app"
        (fun _ => FetchOutcome.abortError)).error.map routeErrorOf ∧
    ((handleGenerate none 0 (some "Build an app")
      (fun _ => FetchOutcome.abortError)).1.error.isSome ↔
      (generateProposal none 0 "Build an app"
        (fun _ => FetchOutcome.abortError)).error.isSome) :=
  c6_generate_route_success_contract none 0 "Build an app"
    (fun _ => FetchOutcome.abortError) (by decide) (by decide)

/-- Claim C7 (amended): when the API credential IS configured, every
empty or whitespace-only idea yields a fallback result with a
`VALIDATION_ERROR`, `retryable = false` error, and no candidate call is
made (the validation precedes the loop). As stated the claim fails when
the credential is unconfigured, because the credential check comes first
and returns fallback with no error. -/
theorem c7_empty_idea_validation_error_when_configured
    (apiKey : Option String) (r : Nat) (idea : String)
    (outcomes : String → FetchOutcome)
    (hk : apiKeyUnconfigured apiKey = false)
    (hempty : (jsTrim idea).length = 0) :
    (generateProposalRun apiKey r idea outcomes).2 = [] ∧
    (generateProposalRun apiKey r idea outcomes).1.source = "fallback" ∧
    (generateProposalRun apiKey r idea outcomes).1.error =
      some validationErrorInfo ∧
    validationErrorInfo.type = "VALIDATION_ERROR" ∧
    validationErrorInfo.retryable = false := by
  unfold generateProposalRun
  rw [if_neg (by simp [hk]), if_pos hempty]
  exact ⟨rfl, rfl, rfl, rfl, rfl⟩

/-- Counterexample for C7 as stated: with an absent credential and the
empty idea, the result carries NO error at all (the credential
short-circuit precedes input validation), contradicting "for every empty
or whitespace-only idea string ... an attached error of kind
VALIDATION_ERROR". -/
theorem c7_empty_idea_counterexample :
    (generateProposal none 0 "" (fun _ => FetchOutcome.abortError)).error = none ∧
    ¬ ((generateProposal none 0 "" (fun _ => FetchOutcome.abortError)).error.map
        ApiError.type = some "VALIDATION_ERROR") := by
  decide

/-- Witness for C7 (amended): a configured key and a whitespace-only idea
give the validation-error fallback with no candidate call. -/
theorem c7_empty_idea_validation_error_witness :
    (generateProposalRun (some "api-key") 0 "   "
      (fun _ => FetchOutcome.abortError)).2 = [] ∧
    (generateProposalRun (some "api-key") 0 "   "
      (fun _ => FetchOutcome.abortError)).1.source = "fallback" ∧
    (generateProposalRun (some "api-key") 0 "   "
      (fun _ => FetchOutcome.abortError)).1.error = some validationErrorInfo ∧
    validationErrorInfo.type = "VALIDATION_ERROR" ∧
    validationErrorInfo.retryable = false :=
  c7_empty_idea_validation_error_when_configured (some "api-key") 0 "   "
    (fun _ => FetchOutcome.abortError) (by decide) (by decide)

/-- Claim C8: every `/generate` request whose idea string is strictly
longer than 4000 characters gets HTTP 400, with no data and without the
orchestrator being invoked. -/
theorem c8_oversized_idea_rejected_400
    (apiKey : Option String) (r : Nat) (idea : String)
    (outcomes : String → FetchOutcome)
    (h : idea.length > 4000) :
    (handleGenerate apiKey r (some idea) outcomes).1.status = 400 ∧
    (handleGenerate apiKey r (some idea) outcomes).2 = false ∧
    (handleGenerate apiKey r (some idea) outcomes).1.data = none := by
  have hne : ¬ (idea = "") := by
    intro he
    subst he
    revert h
    decide
  unfold handleGenerate
  dsimp only
  rw [if_neg hne, if_pos h]
  exact ⟨rfl, rfl, rfl⟩

/-- Witness for C8: a 4001-character idea is rejected with 400 and the
orchestrator is never invoked. -/
theorem c8_oversized_idea_rejected_400_witness :
    (handleGenerate none 0 (some bigIdea)
      (fun _ => FetchOutcome.abortError)).1.status = 400 ∧
    (handleGenerate none 0 (some bigIdea)
      (fun _ => FetchOutcome.abortError)).2 = false ∧
    (handleGenerate none 0 (some bigIdea)
      (fun _ => FetchOutcome.abortError)).1.data = none :=
  c8_oversized_idea_rejected_400 none 0 bigIdea (fun _ => FetchOutcome.abortError)
    (by
      show (String.mk (List.replicate 4001 'a')).length > 4000
      rw [show ∀ l : List Char, (String.mk l).length = l.length from fun l => rfl,
        List.length_replicate]
      omega)

/-- Claim C9 (amended): in every fallback proposal, the TITLE interpolates
the idea truncated to its 50-character prefix with the ellipsis marker
"..." appended exactly when the idea is longer than 50 characters, while
the OBJECTIVE interpolates the FULL idea text (not the truncated
prefix). -/
theorem c9_fallback_interpolation (r : Nat) (idea : String) :
    (∃ pre, (getEnhancedFallback r idea).title =
        pre ++ (jsTake idea 50 ++ (if idea.length > 50 then "..." else ""))) ∧
    (∃ pre post, (getEnhancedFallback r idea).objective = pre ++ idea ++ post) := by
  unfold getEnhancedFallback
  split
  · refine ⟨⟨"Strategic Initiative: ", ?_⟩, ?_⟩
    · dsimp only [fallbackTemplate0]
      rw [String.append_assoc]
    · exact ⟨"This comprehensive project addresses: \"",
        "\". We will deliver an innovative solution combining modern technology with user-centered design to achieve exceptional business outcomes and operational excellence.",
        rfl⟩
  · refine ⟨⟨"Project Catalyst: ", ?_⟩, ?_⟩
    · dsimp only [fallbackTemplate1]
      rw [String.append_assoc]
    · exact ⟨"Our project focuses on transforming \"",
        "\" into a market-ready solution. This initiative will leverage cutting-edge technology to deliver measurable business outcomes and sustainable competitive advantage.",
        rfl⟩

/-- Counterexample for C9 as stated: for a 51-character idea the truncated
prefix with the ellipsis marker occurs in the fallback title but NOT in
the fallback objective (the objective interpolates the full idea, and no
"..." follows it), so the claim that BOTH title and objective interpolate
the truncated text is false. -/
theorem c9_objective_counterexample :
    idea51.length = 51 ∧
    strOccurs (jsTake idea51 50 ++ "...") (getEnhancedFallback 0 idea51).title =
      true ∧
    strOccurs (jsTake idea51 50 ++ "...") (getEnhancedFallback 0 idea51).objective =
      false ∧
    ¬ c9ClaimAt 0 idea51 := by
  refine ⟨by decide, by decide, by decide, fun h => absurd h.2 (by decide)⟩

/-- Claim C10: the `/generate-pdf` guard checks only that the proposal is
present with a truthy title: for every body whose proposal has a
non-empty title, the 400 guard passes and PDF generation is attempted
with the sanitized-title filename, even when objective, features,
targetAudience and considerations are missing or empty. -/
theorem c10_pdf_guard_checks_title_only
    (t : String) (obj : Option String) (feats : Option (List String))
    (aud : Option String) (cons : Option (List String))
    (ht : t ≠ "") :
    handleGeneratePdf
      (some { title := some t, objective := obj, features := feats,
              targetAudience := aud, considerations := cons }) =
      PdfAction.attempt (sanitizeTitle t ++ ".pdf") := by
  unfold handleGeneratePdf
  dsimp only
  rw [if_neg ht]

/-- Witness for C10: a proposal with only a (symbol-laden) title and every
other field missing passes the guard and reaches PDF generation with the
sanitized filename. -/
theorem c10_pdf_guard_checks_title_only_witness :
    handleGeneratePdf
      (some { title := some "A/B: Test!", objective := none, features := none,
              targetAudience := none, considerations := none }) =
      PdfAction.attempt (sanitizeTitle "A/B: Test!" ++ ".pdf") :=
  c10_pdf_guard_checks_title_only "A/B: Test!" none none none none (by decide)
